import Mathlib

/-!
Shallow embedding of the exaOCR conversion service (src/app.py) and proofs of
the specification's claims about it.  The in-memory registries `md_storage`,
`progress_storage` and `recent_results` are modelled as association lists
keyed by strings; endpoint handlers become pure functions on that state.
-/

namespace ExaOCR

/-- Byte strings are modelled as lists of natural numbers, one per byte. -/
abbrev Bytes := List Nat

/-- Lookup in an association list, modelling Python dict `get` on the
in-memory registries of app.py. -/
def lookupS {α : Type} : List (String × α) → String → Option α
  | [], _ => none
  | (a, v) :: t, k => if a = k then some v else lookupS t k

/-- Key removal, modelling Python `del d[k]` (dict keys are unique). -/
def eraseS {α : Type} : List (String × α) → String → List (String × α)
  | [], _ => []
  | (a, v) :: t, k => if a = k then eraseS t k else (a, v) :: eraseS t k

/-- Key insertion or overwrite, modelling Python `d[k] = v`. -/
def insertS {α : Type} (l : List (String × α)) (k : String) (v : α) :
    List (String × α) :=
  (k, v) :: eraseS l k

/-- The per-document progress record held in `progress_storage`
(app.py:356-362). -/
structure ProgressRecord where
  page_count : Nat
  pages_processed : Nat
  failed_pages : List Nat
  status : String
  deriving DecidableEq

/-- The per-document summary held in `recent_results` (app.py:416-420). -/
structure RecentResult where
  page_count : Nat
  status : String
  deriving DecidableEq

/-- The three process-wide registries of app.py:37-39. -/
structure Storage where
  md_storage : List (String × Bytes)
  progress_storage : List (String × ProgressRecord)
  recent_results : List (String × RecentResult)
  deriving DecidableEq

/-- Model of the cleanup endpoint (app.py:556-571): the id is deleted from
each of the three registries in which it is present, and the names of the
registries actually cleaned are reported. -/
def cleanupFile (st : Storage) (fileId : String) : Storage × List String :=
  (⟨if (lookupS st.md_storage fileId).isSome then
      eraseS st.md_storage fileId else st.md_storage,
    if (lookupS st.progress_storage fileId).isSome then
      eraseS st.progress_storage fileId else st.progress_storage,
    if (lookupS st.recent_results fileId).isSome then
      eraseS st.recent_results fileId else st.recent_results⟩,
   (if (lookupS st.md_storage fileId).isSome then ["md_storage"] else []) ++
   (if (lookupS st.progress_storage fileId).isSome then ["progress_storage"] else []) ++
   (if (lookupS st.recent_results fileId).isSome then ["recent_results"] else []))

/-- Model of the download endpoint (app.py:545-554): an absent id or falsy
(empty) stored bytes raise HTTP 404, otherwise the stored bytes are returned
unchanged. -/
def downloadMarkdown (st : Storage) (mdId : String) : Except Nat Bytes :=
  match lookupS st.md_storage mdId with
  | none => Except.error 404
  | some b => if b = [] then Except.error 404 else Except.ok b

/-- UTF-8 encoding of one character, modelling Python `str.encode("utf-8")`
for a single code point. -/
def utf8Char (c : Char) : List Nat :=
  let n := c.toNat
  if n < 128 then [n]
  else if n < 2048 then [192 + n / 64, 128 + n % 64]
  else if n < 65536 then [224 + n / 4096, 128 + n / 64 % 64, 128 + n % 64]
  else [240 + n / 262144, 128 + n / 4096 % 64, 128 + n / 64 % 64, 128 + n % 64]

/-- UTF-8 encoding of a string, modelling `md_text.encode("utf-8")` at
app.py:493. -/
def utf8Encode (s : String) : Bytes :=
  s.data.foldr (fun c acc => utf8Char c ++ acc) []

/-- Model of the artifact-storing step of the upload handler (app.py:491-493):
a markdown id is allocated and the encoded markdown stored exactly when the
run produced truthy (non-empty) markdown text. -/
def uploadStoreMarkdown (st : Storage) (mdText : String) (mdId : String) : Storage :=
  if mdText = "" then st
  else { st with md_storage := insertS st.md_storage mdId (utf8Encode mdText) }

theorem lookupS_eraseS_self {α : Type} (l : List (String × α)) (k : String) :
    lookupS (eraseS l k) k = none := by
  induction l with
  | nil => rfl
  | cons hd t ih =>
    obtain ⟨a, v⟩ := hd
    by_cases h : a = k
    · simp [eraseS, h, ih]
    · simp [eraseS, lookupS, h, ih]

theorem lookupS_eraseS_ne {α : Type} (l : List (String × α)) {j k : String}
    (h : j ≠ k) : lookupS (eraseS l k) j = lookupS l j := by
  induction l with
  | nil => rfl
  | cons hd t ih =>
    obtain ⟨a, v⟩ := hd
    by_cases hak : a = k
    · subst hak
      simp [eraseS, lookupS, ih, Ne.symm h]
    · simp [eraseS, hak, lookupS, ih]

theorem lookupS_insertS_self {α : Type} (l : List (String × α)) (k : String) (v : α) :
    lookupS (insertS l k v) k = some v := by
  simp [insertS, lookupS]

/-- After one cleanup pass over a registry component, the id is absent. -/
theorem lookupS_cleanup_component {α : Type} (l : List (String × α)) (k : String) :
    lookupS (if (lookupS l k).isSome then eraseS l k else l) k = none := by
  by_cases h : (lookupS l k).isSome
  · simp [h, lookupS_eraseS_self]
  · simpa [h] using Option.not_isSome_iff_eq_none.mp h

/-- The claim C9: cleaning up the same id twice is safe: the second call
deletes nothing, reports nothing cleaned, and leaves all three registries
exactly as the first call left them. -/
theorem cleanup_idempotent (st : Storage) (fileId : String) :
    cleanupFile (cleanupFile st fileId).1 fileId = ((cleanupFile st fileId).1, []) := by
  unfold cleanupFile
  simp [lookupS_cleanup_component]

/-- Registry state after a completed one-page run: the upload handler stored
the markdown blob under the fresh markdown id "md-1" (app.py:491-493) while
the progress and recent-result entries are keyed by the document id "file-1"
(app.py:356-362 and 416-420). -/
def runStateC7 : Storage :=
  ⟨[("md-1", [104, 105])],
   [("file-1", ⟨1, 1, [], "completed"⟩)],
   [("file-1", ⟨1, "completed"⟩)]⟩

/-- Counterexample to claim C7: after cleanup of the document id "file-1",
the stored markdown artifact (keyed by the distinct fresh id "md-1") is still
present and still downloadable, so a subsequent retrieval does not report it
absent. -/
theorem cleanup_leaves_artifact_counterexample :
    (cleanupFile runStateC7 "file-1").1.md_storage = [("md-1", [104, 105])] ∧
    downloadMarkdown (cleanupFile runStateC7 "file-1").1 "md-1" =
      Except.ok [104, 105] ∧
    lookupS (cleanupFile runStateC7 "file-1").1.progress_storage "file-1" = none := by
  refine ⟨rfl, rfl, rfl⟩

/-- Amended claim C7: cleanup of an id removes the Progress and recent-result
entries for that id, and removes a markdown blob only when it is stored under
that very id; a markdown artifact stored under a distinct fresh markdown id is
left untouched by cleanup of the document id. -/
theorem cleanup_releases_progress_only (st : Storage) (fileId mdId : String)
    (hne : mdId ≠ fileId) :
    lookupS (cleanupFile st fileId).1.progress_storage fileId = none ∧
    lookupS (cleanupFile st fileId).1.recent_results fileId = none ∧
    lookupS (cleanupFile st fileId).1.md_storage fileId = none ∧
    lookupS (cleanupFile st fileId).1.md_storage mdId = lookupS st.md_storage mdId := by
  unfold cleanupFile
  refine ⟨lookupS_cleanup_component _ _, lookupS_cleanup_component _ _,
    lookupS_cleanup_component _ _, ?_⟩
  by_cases h : (lookupS st.md_storage fileId).isSome
  · simp [h, lookupS_eraseS_ne _ hne]
  · simp [h]

theorem cleanup_releases_progress_only_witness :
    "md-1" ≠ "file-1" ∧
    (lookupS (cleanupFile runStateC7 "file-1").1.progress_storage "file-1" = none ∧
     lookupS (cleanupFile runStateC7 "file-1").1.recent_results "file-1" = none ∧
     lookupS (cleanupFile runStateC7 "file-1").1.md_storage "file-1" = none ∧
     lookupS (cleanupFile runStateC7 "file-1").1.md_storage "md-1" =
       lookupS runStateC7.md_storage "md-1") :=
  ⟨by decide, cleanup_releases_progress_only runStateC7 "file-1" "md-1" (by decide)⟩

theorem utf8Char_ne_nil (c : Char) : utf8Char c ≠ [] := by
  intro h
  simp only [utf8Char] at h
  split at h
  · simp at h
  · split at h
    · simp at h
    · split at h
      · simp at h
      · simp at h

theorem utf8Encode_ne_nil {s : String} (h : s ≠ "") : utf8Encode s ≠ [] := by
  obtain ⟨data⟩ := s
  cases data with
  | nil => exact absurd rfl h
  | cons c cs =>
    unfold utf8Encode
    simp only [List.foldr_cons]
    intro hnil
    exact utf8Char_ne_nil c (List.append_eq_nil.mp hnil).1

/-- The claim C8: a markdown artifact stored by a completed run (the upload
handler only allocates an id and stores the encoded bytes when the run
produced non-empty markdown text, app.py:491-493) is returned byte-identical
by a subsequent download of that id. -/
theorem upload_download_roundtrip (st : Storage) (mdText mdId : String)
    (hne : mdText ≠ "") :
    downloadMarkdown (uploadStoreMarkdown st mdText mdId) mdId =
      Except.ok (utf8Encode mdText) := by
  unfold uploadStoreMarkdown downloadMarkdown
  simp only [hne, if_false, lookupS_insertS_self]
  simp [utf8Encode_ne_nil hne]

theorem upload_download_roundtrip_witness :
    "hi" ≠ "" ∧
    downloadMarkdown (uploadStoreMarkdown ⟨[], [], []⟩ "hi" "md-1") "md-1" =
      Except.ok (utf8Encode "hi") :=
  ⟨by decide, upload_download_roundtrip ⟨[], [], []⟩ "hi" "md-1" (by decide)⟩

/-- The claim C10: the download endpoint answers 404 for an id whose stored
blob is the empty byte string exactly as it does for an id that was never
stored; the two cases are indistinguishable to the caller. -/
theorem download_empty_equals_absent (st : Storage) (emptyId absentId : String)
    (h1 : lookupS st.md_storage emptyId = some [])
    (h2 : lookupS st.md_storage absentId = none) :
    downloadMarkdown st emptyId = Except.error 404 ∧
    downloadMarkdown st absentId = Except.error 404 ∧
    downloadMarkdown st emptyId = downloadMarkdown st absentId := by
  unfold downloadMarkdown
  rw [h1, h2]
  simp

/-- Storage holding one markdown entry whose blob is empty. -/
def emptyBlobState : Storage := ⟨[("md-e", [])], [], []⟩

theorem download_empty_equals_absent_witness :
    lookupS emptyBlobState.md_storage "md-e" = some [] ∧
    lookupS emptyBlobState.md_storage "md-x" = none ∧
    (downloadMarkdown emptyBlobState "md-e" = Except.error 404 ∧
     downloadMarkdown emptyBlobState "md-x" = Except.error 404 ∧
     downloadMarkdown emptyBlobState "md-e" = downloadMarkdown emptyBlobState "md-x") :=
  ⟨rfl, rfl, download_empty_equals_absent emptyBlobState "md-e" "md-x" rfl rfl⟩

/-- The outcome triple returned by process_single_page (app.py:193): page
index, optional markdown fragment, optional error message. -/
abbrev PageResult := Nat × Option String × Option String

/-- Model of update_progress (app.py:186-191) for an id present in
progress_storage: pages_processed and status are overwritten. -/
def updateProgress (r : ProgressRecord) (pagesProcessed : Nat) (status : String) :
    ProgressRecord :=
  { r with pages_processed := pagesProcessed, status := status }

/-- The fresh progress record created once the page count is known
(app.py:356-362). -/
def initProgress (pageCount : Nat) : ProgressRecord :=
  ⟨pageCount, 0, [], "processing"⟩

/-- Model of the progress effects of the result-collection loop of
process_file (app.py:389-402) applied to the page results in completion
order: a failed page is appended to failed_pages, then update_progress is
called with the completed page's index plus one.  The second component
collects the successive pages_processed values written. -/
def collectProgress (results : List PageResult) (r : ProgressRecord) :
    ProgressRecord × List Nat :=
  results.foldl
    (fun acc res =>
      let r1 := if res.2.2.isSome then
          { acc.1 with failed_pages := acc.1.failed_pages ++ [res.1 + 1] }
        else acc.1
      let r2 := updateProgress r1 (res.1 + 1) "processing"
      (r2, acc.2 ++ [r2.pages_processed]))
    (r, [])

/-- The successive values taken by pages_processed over one run of
process_file: the initial 0 (app.py:359), one write per completed page
(app.py:402), and the final write of page_count (app.py:414). -/
def processFileProgressTrace (results : List PageResult) (pageCount : Nat) :
    List Nat :=
  let start := initProgress pageCount
  let step := collectProgress results start
  let final := updateProgress step.1 pageCount "completed"
  start.pages_processed :: step.2 ++ [final.pages_processed]

/-- The claim C1 fails on the code: for a two-page document whose page 1
worker completes before its page 0 worker, the successive pages_processed
values are 0, 2, 1, 2 — the value decreases from 2 to 1, because app.py:402
stores the completed page's index plus one rather than a count of completed
pages. -/
theorem pages_processed_decreases :
    processFileProgressTrace [(1, some "b", none), (0, some "a", none)] 2 =
      [0, 2, 1, 2] ∧
    (processFileProgressTrace [(1, some "b", none), (0, some "a", none)] 2).getD 2 0 <
      (processFileProgressTrace [(1, some "b", none), (0, some "a", none)] 2).getD 1 0 := by
  refine ⟨rfl, by decide⟩

/-- The fixed leading arguments of every OCR invocation (app.py:199-206). -/
def baseOcrArgs : List String :=
  ["ocrmypdf", "-l", "eng", "--tesseract-timeout", "300", "--jobs", "1",
   "--optimize", "0", "--output-type", "pdf", "--tesseract-pagesegmode", "1"]

/-- The policy-dependent OCR flag selection of process_single_page
(app.py:208-220): force_ocr appends the force flag; otherwise embedded text
selects skip-text; otherwise deskew and clean are appended. -/
def selectOcrFlags (forceOcr hasText : Bool) : List String :=
  if forceOcr then baseOcrArgs ++ ["--force-ocr"]
  else if hasText then baseOcrArgs ++ ["--skip-text"]
  else baseOcrArgs ++ ["--deskew", "--clean"]

/-- The full OCR argument list after the input and output paths are appended
(app.py:222). -/
def ocrArgs (forceOcr hasText : Bool) (pagePdf ocrPagePdf : String) :
    List String :=
  selectOcrFlags forceOcr hasText ++ [pagePdf, ocrPagePdf]

/-- The claim C4: the OCR argument list is determined by the two policy
flags — the force flag is present exactly when forceOcr is set; skip-text is
present exactly when forceOcr is unset and the document has embedded text
(and then deskew and clean are absent); deskew and clean are present exactly
when forceOcr is unset and there is no embedded text, in which case skip-text
is absent so the engine performs OCR with pre-processing. -/
theorem ocr_policy_determinism (forceOcr hasText : Bool) :
    ("--force-ocr" ∈ selectOcrFlags forceOcr hasText ↔ forceOcr = true) ∧
    ("--skip-text" ∈ selectOcrFlags forceOcr hasText ↔
      (forceOcr = false ∧ hasText = true)) ∧
    ("--deskew" ∈ selectOcrFlags forceOcr hasText ↔
      (forceOcr = false ∧ hasText = false)) ∧
    ("--clean" ∈ selectOcrFlags forceOcr hasText ↔
      (forceOcr = false ∧ hasText = false)) := by
  cases forceOcr <;> cases hasText <;> decide

/-- Outcome of the single subprocess.run of the OCR engine (app.py:226-232):
normal exit, CalledProcessError with a return code, or TimeoutExpired. -/
inductive OcrOutcome where
  | success
  | exitCode (returncode : Int)
  | timeout
  deriving DecidableEq

/-- Oracle for the external effects touched by process_single_page.  Each
field is the outcome of one collaborator call: `ocr` the OCR engine run
(app.py:226), `fallbackOrig` the table-detection pass over the original page
in the OCR-failure branch (app.py:246-248), `ocrOutputExists` the existence
check of the OCR output file (app.py:261, it only selects which file later
reads use), `toMarkdown` the pymupdf4llm extraction (app.py:265),
`enhanceOcr` the table-detection pass inside the extraction try-block
(app.py:268-269), `fallbackExtract` the table-detection pass in the
extraction except-block (app.py:295-296), and `unexpected` an exception
caught by the outermost handler (app.py:310-312). -/
structure PageEnv where
  ocr : OcrOutcome
  fallbackOrig : Except String String
  ocrOutputExists : Bool
  toMarkdown : Except String String
  enhanceOcr : Except String String
  fallbackExtract : Except String String
  unexpected : Option String

/-- The per-page heading wrapper used around every produced fragment,
modelling the f-string at app.py:251, 287 and 300. -/
def pageHeading (p : Nat) (body : String) : String :=
  "# Page " ++ toString (p + 1) ++ "\n\n" ++ body ++ "\n\n---\n\n"

/-- The placeholder fragment returned when OCR failed and the fallback
extracted no text (app.py:253). -/
def ocrFailedPlaceholder (p : Nat) : String :=
  "# Page " ++ toString (p + 1) ++ "\n\n[OCR failed - no text extracted]\n\n---\n\n"

/-- The per-page error attached alongside the placeholder (app.py:253). -/
def ocrFailedError (p : Nat) (rc : Int) : String :=
  "Page " ++ toString (p + 1) ++ ": OCR failed with exit code " ++ toString rc

/-- The per-page error of the extraction except-branch (app.py:305). -/
def extractionFailedError (p : Nat) : String :=
  "Page " ++ toString (p + 1) ++ ": Extraction failed"

/-- A page-prefixed error message, modelling the f-strings at app.py:256
and 312. -/
def pageErrorPrefixed (p : Nat) (msg : String) : String :=
  "Page " ++ toString (p + 1) ++ ": " ++ msg

/-- The per-page timeout error (app.py:309). -/
def ocrTimeoutError (p : Nat) : String :=
  "Page " ++ toString (p + 1) ++ ": OCR timeout"

/-- Modelled diagnostic text of Python str(CalledProcessError); only its
shape as a non-null string matters downstream. -/
def calledProcessErrorText (rc : Int) : String :=
  "Command returned non-zero exit status " ++ toString rc

/-- Python whitespace test for str.strip: space, tab, newline, vertical tab,
form feed, carriage return. -/
def isPySpace (c : Char) : Bool :=
  c.toNat = 32 ∨ c.toNat = 9 ∨ c.toNat = 10 ∨ c.toNat = 11 ∨
    c.toNat = 12 ∨ c.toNat = 13

/-- Python str.strip, modelling the .strip() calls of process_single_page:
leading and trailing whitespace removed. -/
def pyStrip (s : String) : String :=
  ⟨((s.data.dropWhile isPySpace).reverse.dropWhile isPySpace).reverse⟩

/-- Helper for splitLines: accumulates the current line in reverse. -/
def splitLinesAux : List Char → List Char → List String
  | [], acc => [⟨acc.reverse⟩]
  | c :: cs, acc =>
      if c = '\n' then ⟨acc.reverse⟩ :: splitLinesAux cs []
      else splitLinesAux cs (c :: acc)

/-- Python str.split("\n"), used on the enhanced text at app.py:276-280. -/
def splitLines (s : String) : List String :=
  splitLinesAux s.data []

/-- Python membership test for the pipe character in a line (app.py:276). -/
def containsPipe (s : String) : Bool :=
  s.data.any (fun c => c = '|')

/-- The quality check deciding whether the table-detection output replaces
the primary extraction (app.py:274-282): the enhanced text must be non-empty,
have at least one pipe-bearing line, and fewer than 30 percent of its lines
pipe-bearing (the source's float threshold 0.3 rendered as the exact rational
comparison 10 * count < 3 * total). -/
def useEnhanced (enhancedText : String) : Bool :=
  if enhancedText = "" then false
  else
    let allLines := splitLines enhancedText
    let enhancedLines := allLines.filter containsPipe
    decide (enhancedLines ≠ [] ∧ 10 * enhancedLines.length < 3 * allLines.length)

/-- The extraction except-branch (app.py:291-305): one more table-detection
attempt; non-blank text becomes a fragment, blank text an empty fragment,
and a second exception the terminal extraction error with an empty
fragment. -/
def fallbackExtractBranch (env : PageEnv) (p : Nat) : PageResult :=
  match env.fallbackExtract with
  | Except.ok t =>
      if pyStrip t ≠ "" then (p, some (pageHeading p t), none)
      else (p, some "", none)
  | Except.error _ => (p, some "", some (extractionFailedError p))

/-- The markdown-extraction phase of process_single_page (app.py:258-305):
primary pymupdf4llm extraction plus the table-detection pass, the quality
check choosing between them, a blank result yielding an empty fragment, and
any exception diverting to the fallback branch. -/
def extractPhase (env : PageEnv) (p : Nat) : PageResult :=
  match env.toMarkdown with
  | Except.error _ => fallbackExtractBranch env p
  | Except.ok pageMarkdown =>
    match env.enhanceOcr with
    | Except.error _ => fallbackExtractBranch env p
    | Except.ok enhancedText =>
        let finalMarkdown :=
          if useEnhanced enhancedText then enhancedText else pageMarkdown
        if finalMarkdown ≠ "" ∧ pyStrip finalMarkdown ≠ "" then
          (p, some (pageHeading p finalMarkdown), none)
        else (p, some "", none)

/-- The OCR-failure branch taken on a CalledProcessError with return code
other than 15 (app.py:240-256): the original page's text is extracted without
OCR; non-blank text is returned as an ordinary success fragment, blank text
as the placeholder fragment together with the OcrFailed error, and an
exception as a null fragment with the process error text. -/
def ocrErrorFallback (env : PageEnv) (p : Nat) (rc : Int) : PageResult :=
  match env.fallbackOrig with
  | Except.ok t =>
      if pyStrip t ≠ "" then (p, some (pageHeading p t), none)
      else (p, some (ocrFailedPlaceholder p), some (ocrFailedError p rc))
  | Except.error _ => (p, none, some (pageErrorPrefixed p (calledProcessErrorText rc)))

/-- Model of process_single_page (app.py:193-312): an unexpected exception or
a timeout is a terminal error with a null fragment; a successful OCR run or
the special return code 15 continues into the extraction phase; any other
CalledProcessError takes the no-OCR fallback branch. -/
def processSinglePage (env : PageEnv) (p : Nat) (forceOcr hasText : Bool) :
    PageResult :=
  match env.unexpected with
  | some msg => (p, none, some (pageErrorPrefixed p msg))
  | none =>
    match env.ocr with
    | OcrOutcome.timeout => (p, none, some (ocrTimeoutError p))
    | OcrOutcome.success => extractPhase env p
    | OcrOutcome.exitCode rc =>
        if rc = 15 then extractPhase env p
        else ocrErrorFallback env p rc

/-- The OCR engine invocations performed for one page.  The source contains a
single subprocess.run of the assembled ocr_args (app.py:226); no branch —
in particular not the exit-code fallback of app.py:240-256 — runs the engine
a second time, so the trace is the singleton of the selected argument list
(empty only if an unexpected exception pre-empts the call). -/
def ocrInvocations (env : PageEnv) (forceOcr hasText : Bool)
    (pagePdf ocrPagePdf : String) : List (List String) :=
  match env.unexpected with
  | some _ => []
  | none => [ocrArgs forceOcr hasText pagePdf ocrPagePdf]

/-- Concrete oracle: the skip-text OCR run exits with code 1 and the no-OCR
fallback over the original page extracts only blank text. -/
def envOcrFailBlank : PageEnv :=
  ⟨OcrOutcome.exitCode 1, Except.ok "", true, Except.ok "", Except.ok "",
   Except.ok "", none⟩

/-- Counterexample to claim C2: when OCR fails with exit code 1 and the
fallback extracts no text, process_single_page (app.py:253) returns a
non-empty placeholder fragment and a non-null error in the same result. -/
theorem page_result_both_set_counterexample :
    (processSinglePage envOcrFailBlank 0 false true).2.1 =
      some (ocrFailedPlaceholder 0) ∧
    ocrFailedPlaceholder 0 ≠ "" ∧
    (processSinglePage envOcrFailBlank 0 false true).2.2 =
      some (ocrFailedError 0 1) := by
  refine ⟨rfl, by decide, rfl⟩

theorem fallbackExtractBranch_error_cases (env : PageEnv) (p : Nat) :
    (fallbackExtractBranch env p).2.2 = none ∨
    ((fallbackExtractBranch env p).2.2 = some (extractionFailedError p) ∧
     (fallbackExtractBranch env p).2.1 = some "") := by
  unfold fallbackExtractBranch
  rcases env.fallbackExtract with m | t
  · exact Or.inr ⟨rfl, rfl⟩
  · by_cases h : pyStrip t ≠ "" <;> simp [h]

theorem extractPhase_error_cases (env : PageEnv) (p : Nat) :
    (extractPhase env p).2.2 = none ∨
    ((extractPhase env p).2.2 = some (extractionFailedError p) ∧
     (extractPhase env p).2.1 = some "") := by
  unfold extractPhase
  rcases env.toMarkdown with m | pm
  · exact fallbackExtractBranch_error_cases env p
  · rcases env.enhanceOcr with m | et
    · exact fallbackExtractBranch_error_cases env p
    · by_cases h : (if useEnhanced et then et else pm) ≠ "" ∧
        pyStrip (if useEnhanced et then et else pm) ≠ "" <;> simp [h]

/-- Amended claim C2: every return of process_single_page carries at most one
of a content fragment and an error — whenever the error component is
non-null the fragment is null or empty — except on the single path where OCR
failed and the no-OCR fallback extracted no text, which returns the fixed
placeholder fragment together with the OcrFailed error. -/
theorem page_result_at_most_one (env : PageEnv) (p : Nat) (forceOcr hasText : Bool)
    (herr : (processSinglePage env p forceOcr hasText).2.2 ≠ none) :
    (processSinglePage env p forceOcr hasText).2.1 = none ∨
    (processSinglePage env p forceOcr hasText).2.1 = some "" ∨
    (processSinglePage env p forceOcr hasText).2.1 = some (ocrFailedPlaceholder p) := by
  obtain ⟨ocr, fo, oe, tm, eo, fe, un⟩ := env
  unfold processSinglePage at herr ⊢
  cases un with
  | some msg => exact Or.inl rfl
  | none =>
    cases ocr with
    | timeout => exact Or.inl rfl
    | success =>
      rcases extractPhase_error_cases ⟨OcrOutcome.success, fo, oe, tm, eo, fe, none⟩ p
        with h | h
      · exact absurd h herr
      · exact Or.inr (Or.inl h.2)
    | exitCode rc =>
      by_cases h15 : rc = 15
      · simp only [h15, if_pos rfl] at herr ⊢
        rcases extractPhase_error_cases
          ⟨OcrOutcome.exitCode rc, fo, oe, tm, eo, fe, none⟩ p with h | h
        · exact absurd h herr
        · exact Or.inr (Or.inl h.2)
      · simp only [if_neg h15] at herr ⊢
        unfold ocrErrorFallback at herr ⊢
        cases fo with
        | error m => exact Or.inl rfl
        | ok t => by_cases ht : pyStrip t ≠ "" <;> simp [ht] at herr ⊢

theorem page_result_at_most_one_witness :
    (processSinglePage envOcrFailBlank 0 false true).2.2 ≠ none ∧
    ((processSinglePage envOcrFailBlank 0 false true).2.1 = none ∨
     (processSinglePage envOcrFailBlank 0 false true).2.1 = some "" ∨
     (processSinglePage envOcrFailBlank 0 false true).2.1 =
       some (ocrFailedPlaceholder 0)) :=
  ⟨by decide, page_result_at_most_one envOcrFailBlank 0 false true (by decide)⟩

/-- The claim C6: a skip-text OCR invocation that exits with code 15
("already had text") is classified as page success — the result is exactly
the markdown-extraction phase's result computed from the produced output, the
OCR-failure fallback branch is not taken, no OCR-failure error can be
recorded (the only error still possible is the extraction one), and the
engine is not re-invoked (the invocation trace stays a singleton). -/
theorem exit_code_15_is_success (env : PageEnv) (p : Nat) (forceOcr hasText : Bool)
    (pagePdf ocrPagePdf : String)
    (hu : env.unexpected = none) (ho : env.ocr = OcrOutcome.exitCode 15) :
    processSinglePage env p forceOcr hasText = extractPhase env p ∧
    ((extractPhase env p).2.2 = none ∨
     (extractPhase env p).2.2 = some (extractionFailedError p)) ∧
    (ocrInvocations env forceOcr hasText pagePdf ocrPagePdf).length = 1 := by
  refine ⟨?_, ?_, ?_⟩
  · unfold processSinglePage
    rw [hu, ho]
    simp
  · rcases extractPhase_error_cases env p with h | h
    · exact Or.inl h
    · exact Or.inr h.1
  · unfold ocrInvocations
    rw [hu]
    rfl

/-- Concrete oracle: the skip-text OCR run exits with code 15 and the
primary extraction then produces text. -/
def envExit15 : PageEnv :=
  ⟨OcrOutcome.exitCode 15, Except.ok "", true, Except.ok "page text",
   Except.ok "", Except.ok "", none⟩

theorem exit_code_15_is_success_witness :
    envExit15.unexpected = none ∧
    envExit15.ocr = OcrOutcome.exitCode 15 ∧
    (processSinglePage envExit15 0 false true = extractPhase envExit15 0 ∧
     ((extractPhase envExit15 0).2.2 = none ∨
      (extractPhase envExit15 0).2.2 = some (extractionFailedError 0)) ∧
     (ocrInvocations envExit15 false true "p.pdf" "o.pdf").length = 1) :=
  ⟨rfl, rfl, exit_code_15_is_success envExit15 0 false true "p.pdf" "o.pdf" rfl rfl⟩

/-- Concrete oracle: the skip-text OCR run exits with code 1 and the no-OCR
fallback over the original page recovers text. -/
def envOcrFailRecover : PageEnv :=
  ⟨OcrOutcome.exitCode 1, Except.ok "recovered text", true, Except.ok "",
   Except.ok "", Except.ok "", none⟩

/-- Counterexample to claim C3: a skip-text OCR invocation exits with code 1
(non-zero, not 15), yet the engine is invoked exactly once in the whole page
run — the single invocation carries the skip-text flags and no invocation
with the force-OCR flag ever happens; the page is settled by the no-OCR text
extraction fallback instead of a retry. -/
theorem no_force_retry_counterexample :
    ocrInvocations envOcrFailRecover false true "page_1.pdf" "ocr_page_1.pdf" =
      [ocrArgs false true "page_1.pdf" "ocr_page_1.pdf"] ∧
    (ocrInvocations envOcrFailRecover false true "page_1.pdf" "ocr_page_1.pdf").length = 1 ∧
    "--force-ocr" ∉ ocrArgs false true "page_1.pdf" "ocr_page_1.pdf" ∧
    processSinglePage envOcrFailRecover 0 false true =
      (0, some (pageHeading 0 "recovered text"), none) := by
  refine ⟨rfl, rfl, by decide, rfl⟩

/-- Amended claim C3: a skip-text OCR invocation exiting with a non-zero code
other than 15 triggers no re-invocation of the OCR engine — the single
invocation (without the force flag) is all that ever runs.  Instead the page
is settled by one no-OCR extraction over the original page: non-blank text
yields a success fragment with no error; blank text yields the placeholder
fragment together with the terminal OcrFailed error carrying the exit code;
an extraction exception yields a null fragment with the process error text. -/
theorem ocr_failure_no_retry (env : PageEnv) (p : Nat) (hasText : Bool)
    (pagePdf ocrPagePdf : String) (rc : Int)
    (hu : env.unexpected = none) (ho : env.ocr = OcrOutcome.exitCode rc)
    (h15 : rc ≠ 15) :
    (ocrInvocations env false hasText pagePdf ocrPagePdf).length = 1 ∧
    "--force-ocr" ∉ selectOcrFlags false hasText ∧
    processSinglePage env p false hasText = ocrErrorFallback env p rc ∧
    ((∃ t, env.fallbackOrig = Except.ok t ∧ pyStrip t ≠ "" ∧
        processSinglePage env p false hasText =
          (p, some (pageHeading p t), none)) ∨
     (∃ t, env.fallbackOrig = Except.ok t ∧ pyStrip t = "" ∧
        processSinglePage env p false hasText =
          (p, some (ocrFailedPlaceholder p), some (ocrFailedError p rc))) ∨
     (∃ m, env.fallbackOrig = Except.error m ∧
        processSinglePage env p false hasText =
          (p, none, some (pageErrorPrefixed p (calledProcessErrorText rc))))) := by
  have hmain : processSinglePage env p false hasText = ocrErrorFallback env p rc := by
    unfold processSinglePage
    rw [hu, ho]
    simp [h15]
  refine ⟨?_, ?_, hmain, ?_⟩
  · unfold ocrInvocations
    rw [hu]
    rfl
  · cases hasText <;> decide
  · rw [hmain]
    unfold ocrErrorFallback
    rcases hf : env.fallbackOrig with m | t
    · exact Or.inr (Or.inr ⟨m, rfl, rfl⟩)
    · by_cases ht : pyStrip t ≠ ""
      · exact Or.inl ⟨t, rfl, ht, by simp [ht]⟩
      · refine Or.inr (Or.inl ⟨t, rfl, not_not.mp ht, by simp [not_not.mp ht]⟩)

theorem ocr_failure_no_retry_witness :
    envOcrFailRecover.unexpected = none ∧
    envOcrFailRecover.ocr = OcrOutcome.exitCode 1 ∧
    (1 : Int) ≠ 15 ∧
    ((ocrInvocations envOcrFailRecover false true "p.pdf" "o.pdf").length = 1 ∧
     "--force-ocr" ∉ selectOcrFlags false true ∧
     processSinglePage envOcrFailRecover 0 false true =
       ocrErrorFallback envOcrFailRecover 0 1 ∧
     ((∃ t, envOcrFailRecover.fallbackOrig = Except.ok t ∧ pyStrip t ≠ "" ∧
         processSinglePage envOcrFailRecover 0 false true =
           (0, some (pageHeading 0 t), none)) ∨
      (∃ t, envOcrFailRecover.fallbackOrig = Except.ok t ∧ pyStrip t = "" ∧
         processSinglePage envOcrFailRecover 0 false true =
           (0, some (ocrFailedPlaceholder 0), some (ocrFailedError 0 1))) ∨
      (∃ m, envOcrFailRecover.fallbackOrig = Except.error m ∧
         processSinglePage envOcrFailRecover 0 false true =
           (0, none, some (pageErrorPrefixed 0 (calledProcessErrorText 1)))))) :=
  ⟨rfl, rfl, by decide,
   ocr_failure_no_retry envOcrFailRecover 0 true "p.pdf" "o.pdf" 1 rfl rfl (by decide)⟩

/-- One step of the result-collection loop of process_file restricted to the
markdown slot array (app.py:399-400): a truthy fragment is written into the
slot of its page index, a null or empty fragment leaves the slot alone. -/
def applyPageResult (acc : List String) (res : Nat × Option String) : List String :=
  match res.2 with
  | some m => if m = "" then acc else acc.set res.1 m
  | none => acc

/-- The markdown slot array produced by the collection loop: starting from
all_markdown = [""] * page_count (app.py:381), the page results are applied
in completion order. -/
def collectMarkdown (pageCount : Nat) (results : List (Nat × Option String)) :
    List String :=
  results.foldl applyPageResult (List.replicate pageCount "")

/-- The fragment a page contributes to the assembled document: its markdown
if truthy, the empty string otherwise. -/
def fragmentOf (o : Option String) : String :=
  o.getD ""

theorem applyPageResult_length (acc : List String) (res : Nat × Option String) :
    (applyPageResult acc res).length = acc.length := by
  unfold applyPageResult
  rcases res with ⟨i, _ | m⟩
  · rfl
  · by_cases h : m = "" <;> simp [h]

theorem foldl_applyPageResult_length (rs : List (Nat × Option String))
    (acc : List String) : (rs.foldl applyPageResult acc).length = acc.length := by
  induction rs generalizing acc with
  | nil => rfl
  | cons r t ih => rw [List.foldl_cons, ih, applyPageResult_length]

theorem foldl_applyPageResult_getElem_untouched (rs : List (Nat × Option String))
    (acc : List String) (i : Nat) (h : ∀ r ∈ rs, r.1 ≠ i) :
    (rs.foldl applyPageResult acc)[i]? = acc[i]? := by
  induction rs generalizing acc with
  | nil => rfl
  | cons r t ih =>
    rw [List.foldl_cons, ih _ (fun x hx => h x (List.mem_cons_of_mem r hx))]
    rcases hr : r with ⟨j, _ | m⟩
    · rfl
    · have hj : j ≠ i := by
        have := h r (List.mem_cons_self r t)
        rw [hr] at this
        exact this
      by_cases hm : m = "" <;> simp [applyPageResult, hm, List.getElem?_set_ne hj]

theorem collectMarkdown_getElem_mem (order : List Nat) (frag : Nat → Option String)
    (acc : List String) (i : Nat) (hnd : order.Nodup) (hmem : i ∈ order)
    (hlt : i < acc.length) (hacc : acc[i]? = some "") :
    ((order.map (fun q => (q, frag q))).foldl applyPageResult acc)[i]? =
      some (fragmentOf (frag i)) := by
  induction order generalizing acc with
  | nil => exact absurd hmem (List.not_mem_nil i)
  | cons q t ih =>
    simp only [List.map_cons, List.foldl_cons]
    have hnd' : t.Nodup := (List.nodup_cons.mp hnd).2
    rcases List.mem_cons.mp hmem with heq | hmem'
    · subst heq
      have hnotin : i ∉ t := (List.nodup_cons.mp hnd).1
      have hnot : ∀ r ∈ t.map (fun q => (q, frag q)), r.1 ≠ i := by
        intro r hr
        obtain ⟨q1, hq1, rfl⟩ := List.mem_map.mp hr
        exact fun hcon => hnotin (hcon ▸ hq1)
      rw [foldl_applyPageResult_getElem_untouched _ _ _ hnot]
      cases hf : frag i with
      | none => simpa [applyPageResult, fragmentOf, hf] using hacc
      | some m =>
        by_cases hm : m = ""
        · simpa [applyPageResult, fragmentOf, hf, hm] using hacc
        · simp [applyPageResult, fragmentOf, hf, hm, List.getElem?_set_self hlt]
    · have hne : q ≠ i := fun hcon => (List.nodup_cons.mp hnd).1 (hcon ▸ hmem')
      refine ih _ hnd' hmem' ?_ ?_
      · rw [applyPageResult_length]
        exact hlt
      · cases hf : frag q with
        | none => simpa [applyPageResult, hf] using hacc
        | some m =>
          by_cases hm : m = ""
          · simpa [applyPageResult, hf, hm] using hacc
          · simpa [applyPageResult, hf, hm, List.getElem?_set_ne hne] using hacc

/-- The claim C5: for every completion order of the page workers (any
permutation of the page indices) the slot array built by the collection loop
has exactly pageCount entries and equals the index-ordered list of page
fragments, so the assembled markdown is the concatenation of the fragments
in strict page-index order, independent of completion order. -/
theorem assembly_index_ordered (pageCount : Nat) (frag : Nat → Option String)
    (order : List Nat) (hperm : order.Perm (List.range pageCount)) :
    collectMarkdown pageCount (order.map (fun q => (q, frag q))) =
      (List.range pageCount).map (fun i => fragmentOf (frag i)) ∧
    (collectMarkdown pageCount (order.map (fun q => (q, frag q)))).length =
      pageCount ∧
    String.join (collectMarkdown pageCount (order.map (fun q => (q, frag q)))) =
      String.join ((List.range pageCount).map (fun i => fragmentOf (frag i))) := by
  have hnd : order.Nodup := hperm.nodup_iff.mpr (List.nodup_range pageCount)
  have hlen : (collectMarkdown pageCount (order.map (fun q => (q, frag q)))).length =
      pageCount := by
    unfold collectMarkdown
    rw [foldl_applyPageResult_length]
    exact List.length_replicate pageCount ""
  have hmain : collectMarkdown pageCount (order.map (fun q => (q, frag q))) =
      (List.range pageCount).map (fun i => fragmentOf (frag i)) := by
    apply List.ext_getElem?
    intro i
    unfold collectMarkdown
    by_cases hi : i < pageCount
    · rw [collectMarkdown_getElem_mem order frag _ i hnd
        (hperm.mem_iff.mpr (List.mem_range.mpr hi))
        (by rw [List.length_replicate]; exact hi)
        (by simp [List.getElem?_replicate, hi])]
      simp [List.getElem?_map, List.getElem?_range, hi]
    · rw [List.getElem?_eq_none
          (by rw [foldl_applyPageResult_length, List.length_replicate]; omega),
        List.getElem?_eq_none (by simp; omega)]
  exact ⟨hmain, hlen, by rw [hmain]⟩

/-- Fragment assignment for the witness run: page 0 produced "A", page 1
produced "B". -/
def fragTwoPages : Nat → Option String :=
  fun i => if i = 0 then some "A" else some "B"

theorem assembly_index_ordered_witness :
    [1, 0].Perm (List.range 2) ∧
    (collectMarkdown 2 ([1, 0].map (fun q => (q, fragTwoPages q))) =
      (List.range 2).map (fun i => fragmentOf (fragTwoPages i)) ∧
     (collectMarkdown 2 ([1, 0].map (fun q => (q, fragTwoPages q)))).length = 2 ∧
     String.join (collectMarkdown 2 ([1, 0].map (fun q => (q, fragTwoPages q)))) =
       String.join ((List.range 2).map (fun i => fragmentOf (fragTwoPages i)))) :=
  ⟨by decide, assembly_index_ordered 2 fragTwoPages [1, 0] (by decide)⟩

end ExaOCR
